import Mathlib

/-!
Verification of the authentication / 2FA / recovery-code core of the
2FA-SECURITY-APP backend against its specification.

The route handlers under `src/app/api/` are embedded directly.  The action
layer (`@/lib/actions/*`), the JWT utilities (`@/lib/utils`) and the crypto
primitives (bcrypt, TOTP/HOTP) are not part of the provided sources; those
definitions are modelled from the specification and are marked as such in
their doc comments.
-/

namespace TwoFA

/-! ## Characters and strings -/

/-- Whitespace test used by the e-mail validation regexes (`\s`). -/
def isWs (c : Char) : Bool :=
  c = ' ' || c = '\t' || c = '\n' || c = '\r'

/-- ASCII lower-casing of one character, model of JS `toLowerCase`. -/
def lowerChar (c : Char) : Char :=
  if 'A' ≤ c ∧ c ≤ 'Z' then Char.ofNat (c.toNat + 32) else c

/-- Lower-casing of a string, model of JS `String.prototype.toLowerCase`. -/
def lowerStr (s : String) : String :=
  String.mk (s.toList.map lowerChar)

/-- Trimming of leading and trailing whitespace, model of JS `trim`. -/
def trimStr (s : String) : String :=
  String.mk (((s.toList.dropWhile isWs).reverse.dropWhile isWs).reverse)

/-- Model of the e-mail regex used by every route. -/
def validEmail (s : String) : Bool :=
  let cs := s.toList
  cs.all (fun c => !isWs c) &&
  cs.count '@' == 1 &&
  (let a := cs.takeWhile (fun c => c ≠ '@')
   let d := (cs.dropWhile (fun c => c ≠ '@')).tail
   !a.isEmpty && !d.isEmpty && (d.drop 1).dropLast.contains '.')

/-- Model of the 2FA-code regex: exactly six decimal digits. -/
def sixDigits (s : String) : Bool :=
  s.toList.length == 6 && s.toList.all (fun c => c.isDigit)

/-! ## Crypto primitives (external collaborators) -/

/-- Modelled from the spec: Secret Hasher `hash(plaintext) -> hash`
(bcrypt is not part of the provided sources).  The tag keeps distinct
plaintexts at distinct hashes, as the round-trip property of the spec demands. -/
def hashPassword (p : String) : String :=
  String.mk ('p' :: 'h' :: '#' :: p.toList)

/-- Modelled from the spec: Secret Hasher `verify(plaintext, hash) -> bool`. -/
def verifyPassword (p h : String) : Bool :=
  h == hashPassword p

/-- Modelled from the spec: the Recovery Code Manager stores only hashes of
the generated codes; the hashing function itself is not in the sources. -/
def hashRecovery (c : String) : String :=
  String.mk ('r' :: 'h' :: '#' :: c.toList)

/-- Parse a non-empty all-digit character list as a number. -/
def digitsToNat : List Char → Option Nat
  | [] => none
  | cs =>
    if cs.all (fun c => c.isDigit) then
      some (cs.foldl (fun n c => n * 10 + (c.toNat - 48)) 0)
    else none

/-- Modelled from the spec: Session Issuer `issue(userId) -> signed token`
(the JWT library is not in the provided sources). -/
def issueToken (uid : Nat) : String :=
  String.mk ('t' :: 'o' :: 'k' :: '#' :: (toString uid).toList)

/-- Modelled from the spec: Session Issuer `validate(token) -> userId | fails`
(`validateToken` of `@/lib/utils` is not in the provided sources). -/
def validateToken (t : String) : Option Nat :=
  match t.toList with
  | 't' :: 'o' :: 'k' :: '#' :: rest => digitsToNat rest
  | _ => none

/-! ## TOTP engine (modelled from the spec) -/

/-- Modelled from the spec: `currentCode(secret, time) -> 6-digit code`, a
deterministic function of the secret and the 30-second time step (the
HOTP/TOTP library is not in the provided sources). -/
def currentCode (secret step : Nat) : Nat :=
  (secret + 7 * step) % 1000000

/-- Modelled from the spec: `verify(secret, submittedCode, time)` accepts
the code of the current step and of the immediately preceding step. -/
def totpVerify (secret code step : Nat) : Bool :=
  code == currentCode secret step || code == currentCode secret (step - 1)

/-! ## Data model -/

/-- A stored user record. -/
structure User where
  id : Nat
  email : String
  passwordHash : String
  name : String
  createdAt : Nat
  updatedAt : Nat
deriving DecidableEq, Repr

/-- A stored 2FA record, owned by exactly one user. -/
structure TwofaRecord where
  userId : Nat
  secret : Nat
  enabled : Bool
deriving DecidableEq, Repr

/-- One stored recovery code: hash of the code value plus consumption state. -/
structure RecoveryCode where
  userId : Nat
  codeHash : String
  consumed : Bool
  consumedAt : Option Nat
deriving DecidableEq, Repr

/-- The credential store. -/
structure Store where
  users : List User
  twofas : List TwofaRecord
  recoveryCodes : List RecoveryCode
  nextId : Nat
deriving DecidableEq, Repr

/-- Case-insensitive key under which e-mails are compared. -/
def emailKey (e : String) : String := lowerStr e

/-- The sanitisation the routes apply to a submitted e-mail:
`email.toLowerCase().trim()`. -/
def sanitizeEmail (e : String) : String := trimStr (lowerStr e)

/-- Case-insensitive user lookup by e-mail. -/
def findUserByEmail (e : String) (s : Store) : Option User :=
  s.users.find? (fun u => emailKey u.email == emailKey e)

/-- Lookup of the 2FA record of a user. -/
def findTwofa (uid : Nat) (s : Store) : Option TwofaRecord :=
  s.twofas.find? (fun tf => tf.userId == uid)

/-! ## Responses -/

/-- The possible JSON payloads of a success response. -/
inductive Body where
  | empty
  | token (t : String)
  | user (id : Nat) (email name : String) (createdAt : Nat)
  | profile (id : Nat) (email name : String) (createdAt updatedAt : Nat)
  | twofaStatus (enabled : Bool)
  | twofaSetup (secret : Nat) (uri : String)
  | twofaRecord (tf : TwofaRecord)
  | verified (timestamp : Nat)
  | plainCodes (codes : List String)
  | codeList (codes : List RecoveryCode)
deriving DecidableEq, Repr

/-- An HTTP-level response: status code, message and payload. -/
structure ApiResponse where
  status : Nat
  message : String
  body : Body
deriving DecidableEq, Repr

/-- `error_response(message, status)` of `@/lib/utils`. -/
def error_response (msg : String) (status : Nat) : ApiResponse :=
  ⟨status, msg, .empty⟩

/-- `success_response(data, message, status)` of `@/lib/utils`. -/
def success_response (b : Body) (msg : String) (status : Nat) : ApiResponse :=
  ⟨status, msg, b⟩

/-! ## Action layer (modelled from the spec) -/

/-- Parameters the register routes pass to `createUser`. -/
structure CreateParams where
  email : String
  password : String
  full_name : String
deriving DecidableEq, Repr

/-- Modelled from the spec: `createUser` of `@/lib/actions/user` persists a
new user and fails with a unique-constraint conflict when the (unique,
case-insensitive) e-mail is already registered. -/
def createUser (p : CreateParams) (now : Nat) (s : Store) :
    Except Unit (User × Store) :=
  match findUserByEmail p.email s with
  | some _ => .error ()
  | none =>
    let u : User := ⟨s.nextId, p.email, hashPassword p.password, p.full_name, now, now⟩
    .ok (u, { s with users := s.users ++ [u], nextId := s.nextId + 1 })

/-- Modelled from the spec: `loginUser` of `@/lib/actions/user` looks the
user up by e-mail, verifies the password hash and issues a session token on
match alone. -/
def loginUser (email password : String) (s : Store) : Option String :=
  match findUserByEmail email s with
  | none => none
  | some u => if verifyPassword password u.passwordHash then some (issueToken u.id) else none

/-- `getUserById` of `@/lib/actions/user` (modelled from the spec). -/
def getUserById (uid : Nat) (s : Store) : Option User :=
  s.users.find? (fun u => u.id == uid)

/-- Modelled from the spec: a provisioning URI for authenticator apps,
derived from the shared secret. -/
def provisioningUri (secret : Nat) : String :=
  String.mk ('o' :: 't' :: 'p' :: '#' :: (toString secret).toList)

/-- Modelled from the spec: `generate2fa` of `@/lib/actions/twofa` stores a
fresh secret for the user (state `PendingVerification`, enabled still
false), replacing any existing record. -/
def generate2fa (uid freshSecret : Nat) (s : Store) : TwofaRecord × Store :=
  let tf : TwofaRecord := ⟨uid, freshSecret, false⟩
  (tf, { s with twofas := tf :: s.twofas.filter (fun t => !(t.userId == uid)) })

/-- Modelled from the spec: `verify2fa` of `@/lib/actions/twofa` validates
the submitted code against the stored secret and on success flips the
record to `Enabled`. -/
def verify2fa (uid code now : Nat) (s : Store) : Option (TwofaRecord × Store) :=
  match findTwofa uid s with
  | none => none
  | some tf =>
    if totpVerify tf.secret code now then
      let tf' : TwofaRecord := { tf with enabled := true }
      some (tf', { s with twofas := s.twofas.map (fun t => if t.userId == uid then tf' else t) })
    else none

/-- `getTwofaByUserId` of `@/lib/actions/twofa` (modelled from the spec). -/
def getTwofaByUserId (uid : Nat) (s : Store) : Option TwofaRecord :=
  findTwofa uid s

/-- Modelled from the spec: `delete2fa` of `@/lib/actions/twofa` removes the
2FA record of the user. -/
def delete2fa (uid : Nat) (s : Store) : Option (TwofaRecord × Store) :=
  match findTwofa uid s with
  | none => none
  | some tf => some (tf, { s with twofas := s.twofas.filter (fun t => !(t.userId == uid)) })

/-- Modelled from the spec: `getTwofaByEmail` of `@/lib/actions/twofa`
resolves the user by e-mail and returns their 2FA record, if any. -/
def getTwofaByEmail (email : String) (s : Store) : Option TwofaRecord :=
  (findUserByEmail email s).bind (fun u => findTwofa u.id s)

/-- Modelled from the spec: `verifyTwofaTokenByEmail` of
`@/lib/actions/twofa` validates a code against the Enabled secret of the
user resolved by e-mail; any failure is indistinguishable. -/
def verifyTwofaTokenByEmail (email : String) (code now : Nat) (s : Store) : Bool :=
  match getTwofaByEmail email s with
  | none => false
  | some tf => tf.enabled && totpVerify tf.secret code now

/-- Does this stored recovery code belong to `uid`, carry hash `h`, and
remain unconsumed? -/
def matchB (uid : Nat) (h : String) (rc : RecoveryCode) : Bool :=
  rc.userId == uid && rc.codeHash == h && !rc.consumed

/-- Mark a stored code consumed if it matches, else leave it unchanged. -/
def consumeIfMatch (now : Nat) (uid : Nat) (h : String) (rc : RecoveryCode) : RecoveryCode :=
  if matchB uid h rc then { rc with consumed := true, consumedAt := some now } else rc

/-- Consume the first matching unconsumed code of a list; `none` when no
code matches. -/
def consumeFirst (now : Nat) (uid : Nat) (h : String) :
    List RecoveryCode → Option (List RecoveryCode)
  | [] => none
  | rc :: rest =>
    if matchB uid h rc then
      some ({ rc with consumed := true, consumedAt := some now } :: rest)
    else
      (consumeFirst now uid h rest).map (fun l => rc :: l)

/-- Modelled from the spec: `bulkCreateRecoveryCodes` of
`@/lib/actions/recovery-codes` atomically deletes any previous batch of the
user and stores the hashes of the 16 fresh codes, all unconsumed. -/
def bulkCreateRecoveryCodes (uid : Nat) (freshCodes : List String) (s : Store) : Store :=
  { s with recoveryCodes :=
      s.recoveryCodes.filter (fun rc => !(rc.userId == uid)) ++
      freshCodes.map (fun c => ⟨uid, hashRecovery c, false, none⟩) }

/-- Modelled from the spec: `getRecoveryCodeForSignin` of
`@/lib/actions/recovery-codes` (`verifyAndConsume`) resolves the user by
e-mail, compares the hash of the submitted code against the unconsumed
hashes of the active batch, and on match marks that single code consumed;
every failure (unknown e-mail, no batch, consumed or unknown code) is
indistinguishable. -/
def getRecoveryCodeForSignin (email code : String) (now : Nat) (s : Store) : Option Store :=
  (findUserByEmail email s).bind (fun u =>
    (consumeFirst now u.id (hashRecovery code) s.recoveryCodes).map
      (fun l => { s with recoveryCodes := l }))

/-- `getAllUserRecoveryCodes` of `@/lib/actions/recovery-codes` (modelled
from the spec): the code metadata of the batch of the user, no plaintext. -/
def getAllUserRecoveryCodes (uid : Nat) (s : Store) : List RecoveryCode :=
  s.recoveryCodes.filter (fun rc => rc.userId == uid)

/-- Numeric value of an all-digit code string. -/
def codeToNat (t : String) : Nat :=
  t.toList.foldl (fun n c => n * 10 + (c.toNat - 48)) 0

/-! ## Request bodies

A field holding the empty string models a field that is missing or falsy in
the parsed JSON body (JS treats `""` and `undefined` alike under `!x`). -/

structure RegisterReq where
  email : String
  password : String
  name : String
deriving DecidableEq, Repr

structure LoginReq where
  email : String
  password : String
deriving DecidableEq, Repr

structure CodeReq where
  token : String
deriving DecidableEq, Repr

structure EmailReq where
  email : String
deriving DecidableEq, Repr

structure EmailCodeReq where
  email : String
  token : String
deriving DecidableEq, Repr

structure RecoverySigninReq where
  email : String
  code : String
deriving DecidableEq, Repr

/-! ## Route handlers (embedded from `src/app/api`) -/

/-- The `validateUserToken` helper of the twofa route: missing or invalid
Authorization header raises an error whose message names the token. -/
def validateUserToken (auth : String) : Except String Nat :=
  if auth = "" then .error "Authorization token is required"
  else
    match validateToken auth with
    | none => .error "Invalid or expired token"
    | some uid => .ok uid

/-- `POST /api/register` (`src/app/api/register/route.ts`). -/
def registerPost (s : Store) (body : RegisterReq) (now : Nat) : ApiResponse × Store :=
  let missing := (if body.email = "" then ["email"] else []) ++
                 (if body.password = "" then ["password"] else [])
  if missing ≠ [] then
    (error_response ("Missing required fields: " ++ String.intercalate ", " missing) 400, s)
  else if body.password.length < 8 then
    (error_response "Password must be at least 8 characters long" 400, s)
  else if !validEmail body.email then
    (error_response "Invalid email format" 400, s)
  else
    match createUser ⟨sanitizeEmail body.email, body.password, trimStr body.name⟩ now s with
    | .error _ => (error_response "email already exists" 409, s)
    | .ok (u, s') =>
      (success_response (.user u.id u.email u.name u.createdAt) "User created successfully" 201, s')

/-- `POST /api/login` (`src/app/api/login/route.ts`). -/
def loginPost (s : Store) (body : LoginReq) : ApiResponse :=
  if body.email = "" ∧ body.password = "" then
    error_response "Email and password are required" 400
  else if body.email = "" then
    error_response "Email is required" 400
  else if body.password = "" then
    error_response "Password is required" 400
  else
    match loginUser body.email body.password s with
    | none => error_response "Invalid credentials" 401
    | some tok => success_response (.token tok) "User login successful" 200

/-- `POST /api/twofa` — generate a 2FA secret. -/
def twofaPost (s : Store) (auth : String) (freshSecret : Nat) : ApiResponse × Store :=
  match validateUserToken auth with
  | .error msg => (error_response msg 401, s)
  | .ok uid =>
    let (tf, s') := generate2fa uid freshSecret s
    (success_response (.twofaSetup tf.secret (provisioningUri tf.secret))
      "2FA generated successfully" 201, s')

/-- `PUT /api/twofa` — verify a 2FA code for the token-authenticated user. -/
def twofaPut (s : Store) (auth : String) (body : CodeReq) (now : Nat) : ApiResponse × Store :=
  match validateUserToken auth with
  | .error msg => (error_response msg 401, s)
  | .ok uid =>
    if body.token = "" then
      (error_response "2FA token is required" 400, s)
    else if !sixDigits body.token then
      (error_response "2FA token must be 6 digits" 400, s)
    else
      match verify2fa uid (codeToNat body.token) now s with
      | none => (error_response "Invalid or expired 2FA token" 401, s)
      | some (tf, s') => (success_response (.twofaRecord tf) "2FA verified successfully" 200, s')

/-- `GET /api/twofa` — 2FA status of the token-authenticated user. -/
def twofaGet (s : Store) (auth : String) : ApiResponse × Store :=
  match validateUserToken auth with
  | .error msg => (error_response msg 401, s)
  | .ok uid =>
    match getTwofaByUserId uid s with
    | none => (success_response (.twofaStatus false) "2FA status fetched successfully" 200, s)
    | some tf => (success_response (.twofaRecord tf) "2FA status fetched successfully" 200, s)

/-- `DELETE /api/twofa` — disable 2FA for the token-authenticated user. -/
def twofaDelete (s : Store) (auth : String) : ApiResponse × Store :=
  match validateUserToken auth with
  | .error msg => (error_response msg 401, s)
  | .ok uid =>
    match delete2fa uid s with
    | none => (error_response "2FA not found or already disabled" 404, s)
    | some (tf, s') => (success_response (.twofaRecord tf) "2FA disabled successfully" 200, s')

/-- `POST /api/twofa-by-email` — 2FA status looked up by e-mail. -/
def twofaByEmailPost (s : Store) (body : EmailReq) : ApiResponse :=
  if body.email = "" then
    error_response "Email is required" 400
  else if !validEmail body.email then
    error_response "Invalid email format" 400
  else
    match getTwofaByEmail (sanitizeEmail body.email) s with
    | none => error_response "2FA not found or not enabled" 404
    | some tf => success_response (.twofaStatus tf.enabled) "2FA status fetched successfully" 200

/-- `PUT /api/twofa-by-email` — verify a 2FA code with the user resolved by
e-mail. -/
def twofaByEmailPut (s : Store) (body : EmailCodeReq) (now : Nat) : ApiResponse :=
  if body.email = "" ∧ body.token = "" then
    error_response "Email and 2FA token are required" 400
  else if body.email = "" then
    error_response "Email is required" 400
  else if body.token = "" then
    error_response "2FA token is required" 400
  else if !validEmail body.email then
    error_response "Invalid email format" 400
  else if !sixDigits body.token then
    error_response "2FA token must be 6 digits" 400
  else if verifyTwofaTokenByEmail (sanitizeEmail body.email) (codeToNat body.token) now s then
    success_response (.verified now) "2FA verified successfully" 200
  else
    error_response "Invalid or expired 2FA token" 401

/-- `POST /api/recovery-codes` — generate a fresh batch of recovery codes. -/
def recoveryPost (s : Store) (auth : String) (freshCodes : List String) : ApiResponse × Store :=
  match validateUserToken auth with
  | .error msg => (error_response msg 401, s)
  | .ok uid =>
    (success_response (.plainCodes freshCodes) "Recovery codes generated successfully" 201,
      bulkCreateRecoveryCodes uid freshCodes s)

/-- `PUT /api/recovery-codes` — verify and consume a recovery code. -/
def recoveryPut (s : Store) (body : RecoverySigninReq) (now : Nat) : ApiResponse × Store :=
  if body.email = "" ∨ body.code = "" then
    (error_response "Email and recovery code are required" 400, s)
  else if !validEmail body.email then
    (error_response "Invalid email format" 400, s)
  else
    match getRecoveryCodeForSignin body.email body.code now s with
    | none => (error_response "Invalid recovery code" 401, s)
    | some s' => (success_response .empty "Recovery code status fetched successfully" 200, s')

/-- `GET /api/recovery-codes` — list the recovery-code metadata of the user. -/
def recoveryGet (s : Store) (auth : String) : ApiResponse × Store :=
  match validateUserToken auth with
  | .error msg => (error_response msg 401, s)
  | .ok uid =>
    (success_response (.codeList (getAllUserRecoveryCodes uid s))
      "Recovery codes fetched successfully" 200, s)

/-- `GET /api/profile` (`src/app/api/profile/route.ts`). -/
def profileGet (s : Store) (auth : String) : ApiResponse × Store :=
  if auth = "" then
    (error_response "Authorization token is required" 401, s)
  else
    match validateToken auth with
    | none => (error_response "Invalid or expired token" 401, s)
    | some uid =>
      match getUserById uid s with
      | none => (error_response "User not found" 404, s)
      | some u =>
        (success_response (.profile u.id u.email u.name u.createdAt u.updatedAt)
          "User fetched successfully" 200, s)

/-! ## Concrete demonstration data -/

/-- Sixteen pairwise distinct fresh recovery codes. -/
def demoNewCodes : List String :=
  ["N01", "N02", "N03", "N04", "N05", "N06", "N07", "N08",
   "N09", "N10", "N11", "N12", "N13", "N14", "N15", "N16"]

/-- A concrete registered user. -/
def demoUser : User := ⟨1, "al@mail.co", hashPassword "password1", "Al", 0, 0⟩

/-- A store holding `demoUser` with one fresh recovery code. -/
def demoStore : Store := ⟨[demoUser], [], [⟨1, hashRecovery "RECOV1", false, none⟩], 2⟩

/-- A store holding `demoUser` with 2FA enabled (secret 111222). -/
def demoStore2fa : Store := ⟨[demoUser], [⟨1, 111222, true⟩], [], 2⟩

/-! ## Helper lemmas on recovery-code consumption -/

theorem consumeIfMatch_of_not_match {now uid : Nat} {h : String} {rc : RecoveryCode}
    (hm : matchB uid h rc = false) : consumeIfMatch now uid h rc = rc := by
  simp [consumeIfMatch, hm]

theorem map_consumeIfMatch_of_count_zero {now uid : Nat} {h : String} {l : List RecoveryCode}
    (h0 : l.countP (matchB uid h) = 0) : l.map (consumeIfMatch now uid h) = l := by
  induction l with
  | nil => rfl
  | cons a l ih =>
    cases hm : matchB uid h a with
    | true =>
      rw [List.countP_cons_of_pos _ _ hm] at h0
      exact absurd h0 (Nat.succ_ne_zero _)
    | false =>
      rw [List.countP_cons_of_neg _ _ (by simp [hm])] at h0
      rw [List.map_cons, consumeIfMatch_of_not_match hm, ih h0]

theorem consumeFirst_of_count_zero {now uid : Nat} {h : String} {l : List RecoveryCode}
    (h0 : l.countP (matchB uid h) = 0) : consumeFirst now uid h l = none := by
  induction l with
  | nil => rfl
  | cons a l ih =>
    cases hm : matchB uid h a with
    | true =>
      rw [List.countP_cons_of_pos _ _ hm] at h0
      exact absurd h0 (Nat.succ_ne_zero _)
    | false =>
      rw [List.countP_cons_of_neg _ _ (by simp [hm])] at h0
      simp [consumeFirst, hm, ih h0]

theorem consumeFirst_of_count_one {now uid : Nat} {h : String} {l : List RecoveryCode}
    (h1 : l.countP (matchB uid h) = 1) :
    consumeFirst now uid h l = some (l.map (consumeIfMatch now uid h)) := by
  induction l with
  | nil => simp [List.countP_nil] at h1
  | cons a l ih =>
    cases hm : matchB uid h a with
    | true =>
      rw [List.countP_cons_of_pos _ _ hm] at h1
      have h0 : l.countP (matchB uid h) = 0 := by omega
      simp [consumeFirst, hm, consumeIfMatch,
        map_consumeIfMatch_of_count_zero h0]
    | false =>
      rw [List.countP_cons_of_neg _ _ (by simp [hm])] at h1
      simp [consumeFirst, hm, consumeIfMatch_of_not_match hm, ih h1]

theorem count_map_consumeIfMatch (now uid : Nat) (h : String) (l : List RecoveryCode) :
    (l.map (consumeIfMatch now uid h)).countP (matchB uid h) = 0 := by
  induction l with
  | nil => rfl
  | cons a l ih =>
    rw [List.map_cons, List.countP_cons, ih]
    cases hm : matchB uid h a with
    | true =>
      simp only [consumeIfMatch, hm, if_true]
      simp [matchB]
    | false => simp [consumeIfMatch_of_not_match hm, hm]

/-! ## Claims -/

/-- C1: for every user with an active recovery-code batch, a submitted
recovery code is usable at most once: the first `PUT /api/recovery-codes`
with a fresh valid code succeeds and marks exactly that code consumed
(flag + timestamp), and an immediately repeated attempt with the same code
fails uniformly. -/
theorem recovery_code_single_use
    (s : Store) (email code : String) (now now' : Nat) (u : User)
    (hemail : email ≠ "") (hcode : code ≠ "")
    (hval : validEmail email = true)
    (hu : findUserByEmail email s = some u)
    (h1 : s.recoveryCodes.countP (matchB u.id (hashRecovery code)) = 1) :
    ∃ s' : Store,
      recoveryPut s ⟨email, code⟩ now =
        (success_response .empty "Recovery code status fetched successfully" 200, s') ∧
      s'.users = s.users ∧
      s'.recoveryCodes = s.recoveryCodes.map (consumeIfMatch now u.id (hashRecovery code)) ∧
      recoveryPut s' ⟨email, code⟩ now' =
        (error_response "Invalid recovery code" 401, s') := by
  have hu2 : s.users.find? (fun v => emailKey v.email == emailKey email) = some u := hu
  refine ⟨{ s with recoveryCodes :=
      s.recoveryCodes.map (consumeIfMatch now u.id (hashRecovery code)) }, ?_, rfl, rfl, ?_⟩
  · simp [recoveryPut, hemail, hcode, hval, getRecoveryCodeForSignin,
      findUserByEmail, hu2, consumeFirst_of_count_one h1, success_response]
  · simp [recoveryPut, hemail, hcode, hval, getRecoveryCodeForSignin,
      findUserByEmail, hu2, error_response,
      consumeFirst_of_count_zero
        (count_map_consumeIfMatch now u.id (hashRecovery code) s.recoveryCodes)]

/-- Witness for C1 at the concrete store `demoStore`. -/
theorem recovery_code_single_use_witness :
    findUserByEmail "al@mail.co" demoStore = some demoUser ∧
    demoStore.recoveryCodes.countP (matchB demoUser.id (hashRecovery "RECOV1")) = 1 ∧
    ∃ s' : Store,
      recoveryPut demoStore ⟨"al@mail.co", "RECOV1"⟩ 5 =
        (success_response .empty "Recovery code status fetched successfully" 200, s') ∧
      s'.users = demoStore.users ∧
      s'.recoveryCodes =
        demoStore.recoveryCodes.map (consumeIfMatch 5 demoUser.id (hashRecovery "RECOV1")) ∧
      recoveryPut s' ⟨"al@mail.co", "RECOV1"⟩ 6 =
        (error_response "Invalid recovery code" 401, s') :=
  ⟨by decide, by decide,
    recovery_code_single_use demoStore "al@mail.co" "RECOV1" 5 6 demoUser
      (by decide) (by decide) (by decide) (by decide) (by decide)⟩

/-! ## Lemmas for batch replacement -/

theorem hashRecovery_inj {a b : String} (h : hashRecovery a = hashRecovery b) : a = b := by
  have hd : ('r' :: 'h' :: '#' :: a.data) = ('r' :: 'h' :: '#' :: b.data) :=
    congrArg String.data h
  have hab : a.data = b.data := by simpa using hd
  exact String.ext hab

theorem countP_matchB_filter_ne (uid : Nat) (h : String) (l : List RecoveryCode) :
    (l.filter (fun rc => !(rc.userId == uid))).countP (matchB uid h) = 0 := by
  rw [List.countP_eq_zero]
  intro rc hrc
  rw [List.mem_filter] at hrc
  simp only [Bool.not_eq_true'] at hrc
  simp [matchB, hrc.2]

theorem countP_matchB_map_new (uid : Nat) (c : String) (newCodes : List String)
    (hc : c ∉ newCodes) :
    ((newCodes.map (fun x => (⟨uid, hashRecovery x, false, none⟩ : RecoveryCode))).countP
      (matchB uid (hashRecovery c))) = 0 := by
  rw [List.countP_eq_zero]
  intro rc hrc
  rw [List.mem_map] at hrc
  obtain ⟨x, hx, rfl⟩ := hrc
  simp only [matchB, Bool.and_eq_true, beq_iff_eq, Bool.not_eq_true']
  intro hcontra
  exact hc (hashRecovery_inj hcontra.1.2 ▸ hx)

theorem filter_eq_of_filter_ne (uid : Nat) (l : List RecoveryCode) :
    (l.filter (fun rc => !(rc.userId == uid))).filter (fun rc => rc.userId == uid) = [] := by
  rw [List.filter_eq_nil_iff]
  intro rc hrc
  rw [List.mem_filter] at hrc
  simp only [Bool.not_eq_true'] at hrc
  simp [hrc.2]

theorem filter_eq_map_new (uid : Nat) (newCodes : List String) :
    ((newCodes.map (fun c => (⟨uid, hashRecovery c, false, none⟩ : RecoveryCode))).filter
      (fun rc => rc.userId == uid)) =
      newCodes.map (fun c => ⟨uid, hashRecovery c, false, none⟩) := by
  rw [List.filter_eq_self]
  intro rc hrc
  rw [List.mem_map] at hrc
  obtain ⟨x, _, rfl⟩ := hrc
  simp

/-- C2: generating a new recovery-code batch (`POST /api/recovery-codes`)
replaces any prior batch: afterwards the stored codes of the user are exactly the
16 fresh ones, codes of other users are untouched, and verifying any code
outside the new batch (in particular every prior-batch code) fails. -/
theorem recovery_batch_replacement
    (s : Store) (auth email : String) (uid : Nat) (u : User)
    (newCodes : List String) (now : Nat)
    (htok : validateToken auth = some uid)
    (hu : findUserByEmail email s = some u) (hid : u.id = uid)
    (hlen : newCodes.length = 16)
    (hval : validEmail email = true) (hemail : email ≠ "") :
    ∃ s' : Store,
      recoveryPost s auth newCodes =
        (success_response (.plainCodes newCodes) "Recovery codes generated successfully" 201, s') ∧
      s'.users = s.users ∧
      s'.recoveryCodes.filter (fun rc => rc.userId == uid) =
        newCodes.map (fun c => ⟨uid, hashRecovery c, false, none⟩) ∧
      (s'.recoveryCodes.filter (fun rc => rc.userId == uid)).length = 16 ∧
      (∀ rc ∈ s.recoveryCodes, rc.userId ≠ uid → rc ∈ s'.recoveryCodes) ∧
      (∀ c : String, c ∉ newCodes → c ≠ "" →
        recoveryPut s' ⟨email, c⟩ now = (error_response "Invalid recovery code" 401, s')) := by
  subst hid
  have hauth : auth ≠ "" := by
    intro hnil
    rw [hnil] at htok
    simp [validateToken] at htok
  have hfilter : (bulkCreateRecoveryCodes u.id newCodes s).recoveryCodes.filter
      (fun rc => rc.userId == u.id) =
      newCodes.map (fun c => ⟨u.id, hashRecovery c, false, none⟩) := by
    simp only [bulkCreateRecoveryCodes, List.filter_append]
    rw [filter_eq_of_filter_ne, filter_eq_map_new, List.nil_append]
  refine ⟨bulkCreateRecoveryCodes u.id newCodes s, ?_, rfl, hfilter, ?_, ?_, ?_⟩
  · simp [recoveryPost, validateUserToken, hauth, htok]
  · rw [hfilter, List.length_map, hlen]
  · intro rc hrc hne
    simp only [bulkCreateRecoveryCodes]
    refine List.mem_append_left _ ?_
    rw [List.mem_filter]
    exact ⟨hrc, by simp [hne]⟩
  · intro c hc hcne
    have hu2 : s.users.find? (fun v => emailKey v.email == emailKey email) = some u := hu
    have hcount : (s.recoveryCodes.filter (fun rc => !(rc.userId == u.id)) ++
        newCodes.map (fun x => (⟨u.id, hashRecovery x, false, none⟩ : RecoveryCode))).countP
        (matchB u.id (hashRecovery c)) = 0 := by
      rw [List.countP_append, countP_matchB_filter_ne, countP_matchB_map_new u.id c newCodes hc]
    simp [recoveryPut, hemail, hcne, hval, getRecoveryCodeForSignin, findUserByEmail,
      bulkCreateRecoveryCodes, hu2, consumeFirst_of_count_zero hcount, error_response]

/-- Witness for C2 at the concrete store `demoStore`. -/
theorem recovery_batch_replacement_witness :
    validateToken (issueToken 1) = some 1 ∧
    findUserByEmail "al@mail.co" demoStore = some demoUser ∧
    demoNewCodes.length = 16 ∧
    ∃ s' : Store,
      recoveryPost demoStore (issueToken 1) demoNewCodes =
        (success_response (.plainCodes demoNewCodes)
          "Recovery codes generated successfully" 201, s') ∧
      s'.users = demoStore.users ∧
      s'.recoveryCodes.filter (fun rc => rc.userId == 1) =
        demoNewCodes.map (fun c => ⟨1, hashRecovery c, false, none⟩) ∧
      (s'.recoveryCodes.filter (fun rc => rc.userId == 1)).length = 16 ∧
      (∀ rc ∈ demoStore.recoveryCodes, rc.userId ≠ 1 → rc ∈ s'.recoveryCodes) ∧
      (∀ c : String, c ∉ demoNewCodes → c ≠ "" →
        recoveryPut s' ⟨"al@mail.co", c⟩ 7 = (error_response "Invalid recovery code" 401, s')) :=
  ⟨by decide, by decide, by decide,
    recovery_batch_replacement demoStore (issueToken 1) "al@mail.co" 1 demoUser demoNewCodes 7
      (by decide) (by decide) (by decide) (by decide) (by decide) (by decide)⟩

/-- C3: TOTP verification accepts exactly the codes of the current
30-second step and of the immediately preceding step: the current code
always verifies, the code of step `t-1` still verifies at `t`, and the code
of step `t-2` is rejected. -/
theorem totp_window (secret t : Nat) :
    totpVerify secret (currentCode secret t) t = true ∧
    (1 ≤ t → totpVerify secret (currentCode secret (t - 1)) t = true) ∧
    (2 ≤ t → totpVerify secret (currentCode secret (t - 2)) t = false) ∧
    (∀ c : Nat, totpVerify secret c t = true ↔
      (c = currentCode secret t ∨ c = currentCode secret (t - 1))) := by
  refine ⟨by simp [totpVerify], fun _ => by simp [totpVerify], ?_, ?_⟩
  · intro ht
    simp only [totpVerify, Bool.or_eq_false_iff, beq_eq_false_iff_ne, ne_eq, currentCode]
    constructor
    · omega
    · omega
  · intro c
    simp [totpVerify, Bool.or_eq_true, beq_iff_eq]

/-- Witness for C3 at secret 111222 and step 5. -/
theorem totp_window_witness :
    (1 ≤ 5 ∧ 2 ≤ 5) ∧
    totpVerify 111222 (currentCode 111222 5) 5 = true ∧
    ((1 : Nat) ≤ 5 → totpVerify 111222 (currentCode 111222 (5 - 1)) 5 = true) ∧
    ((2 : Nat) ≤ 5 → totpVerify 111222 (currentCode 111222 (5 - 2)) 5 = false) ∧
    (∀ c : Nat, totpVerify 111222 c 5 = true ↔
      (c = currentCode 111222 5 ∨ c = currentCode 111222 (5 - 1))) :=
  ⟨⟨by decide, by decide⟩, totp_window 111222 5⟩

/-- C4: for a registered user with 2FA enabled, `POST /api/login` issues a
session token as soon as the password matches; no TOTP or recovery step is
required, since 2FA and recovery verification are separate endpoints. -/
theorem login_ignores_twofa
    (s : Store) (email password : String) (u : User) (tf : TwofaRecord)
    (hemail : email ≠ "") (hpass : password ≠ "")
    (hu : findUserByEmail email s = some u)
    (hpw : u.passwordHash = hashPassword password)
    (htf : tf ∈ s.twofas) (htfu : tf.userId = u.id) (hen : tf.enabled = true) :
    loginPost s ⟨email, password⟩ =
      success_response (.token (issueToken u.id)) "User login successful" 200 := by
  simp [loginPost, hemail, hpass, loginUser, hu, verifyPassword, hpw, success_response]

/-- Witness for C4: `demoUser` with 2FA enabled in `demoStore2fa` logs in
with the password alone. -/
theorem login_ignores_twofa_witness :
    findUserByEmail "al@mail.co" demoStore2fa = some demoUser ∧
    demoUser.passwordHash = hashPassword "password1" ∧
    (⟨1, 111222, true⟩ : TwofaRecord) ∈ demoStore2fa.twofas ∧
    loginPost demoStore2fa ⟨"al@mail.co", "password1"⟩ =
      success_response (.token (issueToken demoUser.id)) "User login successful" 200 :=
  ⟨by decide, by decide, by decide,
    login_ignores_twofa demoStore2fa "al@mail.co" "password1" demoUser ⟨1, 111222, true⟩
      (by decide) (by decide) (by decide) (by decide) (by decide) (by decide) (by decide)⟩

/-- C5: for the three e-mail-keyed lookups (2FA status by e-mail, 2FA
verify by e-mail, recovery-code verification), the failure response is
identical whether the submitted e-mail belongs to an existing user
(`e₂`, whose lookup fails for another reason) or to no user at all (`e₁`);
the store is left unchanged either way. -/
theorem uniform_failure_shapes
    (s : Store) (e₁ e₂ code : String) (u : User) (now : Nat)
    (he₁ : e₁ ≠ "") (he₂ : e₂ ≠ "")
    (hv₁ : validEmail e₁ = true) (hv₂ : validEmail e₂ = true)
    (hc : sixDigits code = true) (hcne : code ≠ "")
    (hnou : findUserByEmail (sanitizeEmail e₁) s = none)
    (hyes : findUserByEmail (sanitizeEmail e₂) s = some u)
    (h2fa : getTwofaByEmail (sanitizeEmail e₂) s = none)
    (hver : verifyTwofaTokenByEmail (sanitizeEmail e₂) (codeToNat code) now s = false)
    (hnou' : findUserByEmail e₁ s = none)
    (hrec : getRecoveryCodeForSignin e₂ code now s = none) :
    twofaByEmailPost s ⟨e₁⟩ = twofaByEmailPost s ⟨e₂⟩ ∧
    twofaByEmailPut s ⟨e₁, code⟩ now = twofaByEmailPut s ⟨e₂, code⟩ now ∧
    recoveryPut s ⟨e₁, code⟩ now = recoveryPut s ⟨e₂, code⟩ now ∧
    twofaByEmailPost s ⟨e₁⟩ = error_response "2FA not found or not enabled" 404 ∧
    twofaByEmailPut s ⟨e₁, code⟩ now = error_response "Invalid or expired 2FA token" 401 ∧
    recoveryPut s ⟨e₁, code⟩ now = (error_response "Invalid recovery code" 401, s) := by
  have hpost₁ : twofaByEmailPost s ⟨e₁⟩ = error_response "2FA not found or not enabled" 404 := by
    simp [twofaByEmailPost, he₁, hv₁, getTwofaByEmail, hnou]
  have hpost₂ : twofaByEmailPost s ⟨e₂⟩ = error_response "2FA not found or not enabled" 404 := by
    simp [twofaByEmailPost, he₂, hv₂, h2fa]
  have hg₁ : getTwofaByEmail (sanitizeEmail e₁) s = none := by
    simp [getTwofaByEmail, hnou]
  have hput₁ : twofaByEmailPut s ⟨e₁, code⟩ now =
      error_response "Invalid or expired 2FA token" 401 := by
    simp [twofaByEmailPut, he₁, hcne, hv₁, hc, verifyTwofaTokenByEmail, hg₁]
  have hput₂ : twofaByEmailPut s ⟨e₂, code⟩ now =
      error_response "Invalid or expired 2FA token" 401 := by
    simp [twofaByEmailPut, he₂, hcne, hv₂, hc, hver]
  have hrec₁ : recoveryPut s ⟨e₁, code⟩ now = (error_response "Invalid recovery code" 401, s) := by
    simp [recoveryPut, he₁, hcne, hv₁, getRecoveryCodeForSignin, hnou']
  have hrec₂ : recoveryPut s ⟨e₂, code⟩ now = (error_response "Invalid recovery code" 401, s) := by
    simp [recoveryPut, he₂, hcne, hv₂, hrec]
  exact ⟨hpost₁.trans hpost₂.symm, hput₁.trans hput₂.symm, hrec₁.trans hrec₂.symm,
    hpost₁, hput₁, hrec₁⟩

/-- Witness for C5: `ghost@mail.co` is unknown, `al@mail.co` exists without
2FA and without a matching recovery code; the failure responses coincide. -/
theorem uniform_failure_shapes_witness :
    findUserByEmail (sanitizeEmail "ghost@mail.co") demoStore = none ∧
    findUserByEmail (sanitizeEmail "al@mail.co") demoStore = some demoUser ∧
    twofaByEmailPost demoStore ⟨"ghost@mail.co"⟩ = twofaByEmailPost demoStore ⟨"al@mail.co"⟩ ∧
    twofaByEmailPut demoStore ⟨"ghost@mail.co", "123456"⟩ 9 =
      twofaByEmailPut demoStore ⟨"al@mail.co", "123456"⟩ 9 ∧
    recoveryPut demoStore ⟨"ghost@mail.co", "123456"⟩ 9 =
      recoveryPut demoStore ⟨"al@mail.co", "123456"⟩ 9 ∧
    twofaByEmailPost demoStore ⟨"ghost@mail.co"⟩ =
      error_response "2FA not found or not enabled" 404 ∧
    twofaByEmailPut demoStore ⟨"ghost@mail.co", "123456"⟩ 9 =
      error_response "Invalid or expired 2FA token" 401 ∧
    recoveryPut demoStore ⟨"ghost@mail.co", "123456"⟩ 9 =
      (error_response "Invalid recovery code" 401, demoStore) :=
  ⟨by decide, by decide,
    uniform_failure_shapes demoStore "ghost@mail.co" "al@mail.co" "123456" demoUser 9
      (by decide) (by decide) (by decide) (by decide) (by decide) (by decide)
      (by decide) (by decide) (by decide) (by decide) (by decide) (by decide)⟩

/-- C6: when the submitted 2FA code is not exactly six decimal digits, both
verification routes (`PUT /api/twofa-by-email` and the token-authenticated
`PUT /api/twofa`) answer with a 400 validation error whose content does not
depend on the store, and leave the store unchanged — no cryptographic
comparison or store lookup happens. -/
theorem malformed_code_rejected_early
    (body : EmailCodeReq) (body2 : CodeReq) (s : Store) (auth : String) (uid now : Nat)
    (hbad : sixDigits body.token = false)
    (hbad2 : sixDigits body2.token = false)
    (htok : validateToken auth = some uid) :
    (twofaByEmailPut s body now).status = 400 ∧
    (∀ s₂ : Store, twofaByEmailPut s₂ body now = twofaByEmailPut s body now) ∧
    (twofaPut s auth body2 now).1.status = 400 ∧
    (twofaPut s auth body2 now).2 = s ∧
    (∀ s₂ : Store, twofaPut s₂ auth body2 now = ((twofaPut s auth body2 now).1, s₂)) := by
  have hauth : auth ≠ "" := by
    intro hnil
    rw [hnil] at htok
    simp [validateToken] at htok
  have key : ∀ s₂ : Store, twofaByEmailPut s₂ body now = twofaByEmailPut s body now := by
    intro s₂
    by_cases he : body.email = "" <;> by_cases ht : body.token = "" <;>
      cases hv : validEmail body.email <;>
        simp [twofaByEmailPut, he, ht, hv, hbad]
  have hst : (twofaByEmailPut s body now).status = 400 := by
    by_cases he : body.email = "" <;> by_cases ht : body.token = "" <;>
      cases hv : validEmail body.email <;>
        simp [twofaByEmailPut, he, ht, hv, hbad, error_response]
  have key2 : ∀ s₂ : Store, twofaPut s₂ auth body2 now = ((twofaPut s auth body2 now).1, s₂) := by
    intro s₂
    by_cases ht : body2.token = "" <;>
      simp [twofaPut, validateUserToken, hauth, htok, ht, hbad2]
  have hst2 : (twofaPut s auth body2 now).1.status = 400 := by
    by_cases ht : body2.token = "" <;>
      simp [twofaPut, validateUserToken, hauth, htok, ht, hbad2, error_response]
  exact ⟨hst, key, hst2, by rw [key2 s], key2⟩

/-- Witness for C6: a five-digit code and a non-numeric code are both
rejected with 400 on concrete stores. -/
theorem malformed_code_rejected_early_witness :
    sixDigits "12345" = false ∧
    sixDigits "12a456" = false ∧
    validateToken (issueToken 1) = some 1 ∧
    (twofaByEmailPut demoStore ⟨"al@mail.co", "12345"⟩ 3).status = 400 ∧
    (∀ s₂ : Store, twofaByEmailPut s₂ ⟨"al@mail.co", "12345"⟩ 3 =
      twofaByEmailPut demoStore ⟨"al@mail.co", "12345"⟩ 3) ∧
    (twofaPut demoStore (issueToken 1) ⟨"12a456"⟩ 3).1.status = 400 ∧
    (twofaPut demoStore (issueToken 1) ⟨"12a456"⟩ 3).2 = demoStore ∧
    (∀ s₂ : Store, twofaPut s₂ (issueToken 1) ⟨"12a456"⟩ 3 =
      ((twofaPut demoStore (issueToken 1) ⟨"12a456"⟩ 3).1, s₂)) :=
  ⟨by decide, by decide, by decide,
    (malformed_code_rejected_early ⟨"al@mail.co", "12345"⟩ ⟨"12a456"⟩ demoStore
      (issueToken 1) 1 3 (by decide) (by decide) (by decide)).1,
    (malformed_code_rejected_early ⟨"al@mail.co", "12345"⟩ ⟨"12a456"⟩ demoStore
      (issueToken 1) 1 3 (by decide) (by decide) (by decide)).2.1,
    (malformed_code_rejected_early ⟨"al@mail.co", "12345"⟩ ⟨"12a456"⟩ demoStore
      (issueToken 1) 1 3 (by decide) (by decide) (by decide)).2.2.1,
    (malformed_code_rejected_early ⟨"al@mail.co", "12345"⟩ ⟨"12a456"⟩ demoStore
      (issueToken 1) 1 3 (by decide) (by decide) (by decide)).2.2.2.1,
    (malformed_code_rejected_early ⟨"al@mail.co", "12345"⟩ ⟨"12a456"⟩ demoStore
      (issueToken 1) 1 3 (by decide) (by decide) (by decide)).2.2.2.2⟩

/-- C7: `POST /api/register` fails with 409 for an already-registered
e-mail and with 400 for a password shorter than 8 characters; in both
cases the store (hence the set of user records) is unchanged. -/
theorem register_conflict_and_weak_password
    (s : Store) (body : RegisterReq) (u : User) (now : Nat)
    (hemail : body.email ≠ "") (hpass : body.password ≠ "") :
    (body.password.length < 8 →
      registerPost s body now =
        (error_response "Password must be at least 8 characters long" 400, s)) ∧
    (8 ≤ body.password.length → validEmail body.email = true →
      findUserByEmail (sanitizeEmail body.email) s = some u →
      registerPost s body now = (error_response "email already exists" 409, s)) := by
  constructor
  · intro hlen
    simp [registerPost, hemail, hpass, hlen]
  · intro hlen hval hu
    have hnlt : ¬ (body.password.length < 8) := by omega
    simp [registerPost, hemail, hpass, hnlt, hval, createUser, hu]

/-- Witness for C7: a 5-character password is rejected with 400; re-using
`al@mail.co` (in different letter case) is rejected with 409; `demoStore`
is unchanged both times. -/
theorem register_conflict_and_weak_password_witness :
    ("short" : String).length < 8 ∧
    (8 ≤ ("password123" : String).length ∧
      findUserByEmail (sanitizeEmail "Al@Mail.co") demoStore = some demoUser) ∧
    registerPost demoStore ⟨"new@mail.co", "short", "Bo"⟩ 4 =
      (error_response "Password must be at least 8 characters long" 400, demoStore) ∧
    registerPost demoStore ⟨"Al@Mail.co", "password123", "Al"⟩ 4 =
      (error_response "email already exists" 409, demoStore) :=
  ⟨by decide, ⟨by decide, by decide⟩,
    (register_conflict_and_weak_password demoStore ⟨"new@mail.co", "short", "Bo"⟩ demoUser 4
      (by decide) (by decide)).1 (by decide),
    (register_conflict_and_weak_password demoStore ⟨"Al@Mail.co", "password123", "Al"⟩ demoUser 4
      (by decide) (by decide)).2 (by decide) (by decide) (by decide)⟩

/-- C8: user e-mails are unique case-insensitively: two e-mails that agree
after lower-casing resolve to the same user in every e-mail-keyed lookup
(direct lookup, login, 2FA-by-email), registration responds identically to
both spellings, and registering either spelling conflicts once a user with
the other spelling exists. -/
theorem email_case_insensitive
    (s : Store) (e₁ e₂ pw : String) (u : User) (p : CreateParams) (now : Nat)
    (hkey : emailKey e₁ = emailKey e₂) :
    findUserByEmail e₁ s = findUserByEmail e₂ s ∧
    loginUser e₁ pw s = loginUser e₂ pw s ∧
    getTwofaByEmail e₁ s = getTwofaByEmail e₂ s ∧
    (validEmail e₁ = true → validEmail e₂ = true → ∀ n : String,
      registerPost s ⟨e₁, pw, n⟩ now = registerPost s ⟨e₂, pw, n⟩ now) ∧
    (findUserByEmail e₁ s = some u → p.email = e₂ → createUser p now s = .error ()) := by
  have hfind : findUserByEmail e₁ s = findUserByEmail e₂ s := by
    unfold findUserByEmail
    rw [hkey]
  have hsan : sanitizeEmail e₁ = sanitizeEmail e₂ := congrArg trimStr hkey
  refine ⟨hfind, ?_, ?_, ?_, ?_⟩
  · unfold loginUser
    rw [hfind]
  · unfold getTwofaByEmail
    rw [hfind]
  · intro hv₁ hv₂ n
    have he₁ : e₁ ≠ "" := by
      intro h
      rw [h] at hv₁
      exact absurd hv₁ (by decide)
    have he₂ : e₂ ≠ "" := by
      intro h
      rw [h] at hv₂
      exact absurd hv₂ (by decide)
    simp [registerPost, he₁, he₂, hv₁, hv₂, hsan]
  · intro hu hp
    unfold createUser
    rw [hp, ← hfind, hu]

/-- Witness for C8 at `AL@MAIL.CO` versus `al@mail.co` over `demoStore`. -/
theorem email_case_insensitive_witness :
    emailKey "AL@MAIL.CO" = emailKey "al@mail.co" ∧
    findUserByEmail "AL@MAIL.CO" demoStore = findUserByEmail "al@mail.co" demoStore ∧
    loginUser "AL@MAIL.CO" "password1" demoStore =
      loginUser "al@mail.co" "password1" demoStore ∧
    getTwofaByEmail "AL@MAIL.CO" demoStore = getTwofaByEmail "al@mail.co" demoStore ∧
    (validEmail "AL@MAIL.CO" = true → validEmail "al@mail.co" = true → ∀ n : String,
      registerPost demoStore ⟨"AL@MAIL.CO", "password1", n⟩ 4 =
        registerPost demoStore ⟨"al@mail.co", "password1", n⟩ 4) ∧
    (findUserByEmail "AL@MAIL.CO" demoStore = some demoUser →
      (⟨"al@mail.co", "password1", "Al"⟩ : CreateParams).email = "al@mail.co" →
      createUser ⟨"al@mail.co", "password1", "Al"⟩ 4 demoStore = .error ()) :=
  ⟨by decide,
    email_case_insensitive demoStore "AL@MAIL.CO" "al@mail.co" "password1" demoUser
      ⟨"al@mail.co", "password1", "Al"⟩ 4 (by decide)⟩

/-- C9: success responses never carry sensitive stored values: the
registration success body consists exactly of id, e-mail, name and
createdAt (so it is the same whatever the password was), and the
2FA-status-by-email success body consists exactly of the enabled boolean
(never the shared secret). -/
theorem responses_omit_sensitive
    (s : Store) (body : RegisterReq) (now : Nat) (e : String) (tf : TwofaRecord)
    (hemail : body.email ≠ "") (hpass : body.password ≠ "")
    (hlen : ¬ (body.password.length < 8)) (hval : validEmail body.email = true)
    (hfree : findUserByEmail (sanitizeEmail body.email) s = none)
    (he : e ≠ "") (hve : validEmail e = true)
    (htf : getTwofaByEmail (sanitizeEmail e) s = some tf) :
    (registerPost s body now).1 =
      success_response
        (.user s.nextId (sanitizeEmail body.email) (trimStr body.name) now)
        "User created successfully" 201 ∧
    (∀ pw₂ : String, pw₂ ≠ "" → ¬ (pw₂.length < 8) →
      (registerPost s ⟨body.email, pw₂, body.name⟩ now).1 = (registerPost s body now).1) ∧
    twofaByEmailPost s ⟨e⟩ =
      success_response (.twofaStatus tf.enabled) "2FA status fetched successfully" 200 := by
  have h1 : ∀ pw : String, pw ≠ "" → ¬ (pw.length < 8) →
      (registerPost s ⟨body.email, pw, body.name⟩ now).1 =
        success_response
          (.user s.nextId (sanitizeEmail body.email) (trimStr body.name) now)
          "User created successfully" 201 := by
    intro pw hp hl
    simp [registerPost, hemail, hp, hl, hval, createUser, hfree, success_response]
  refine ⟨h1 body.password hpass hlen, ?_, ?_⟩
  · intro pw₂ h2 h3
    exact (h1 pw₂ h2 h3).trans (h1 body.password hpass hlen).symm
  · simp [twofaByEmailPost, he, hve, htf, success_response]

/-- Witness for C9: registering `bo@mail.co` returns only id, e-mail, name
and createdAt, identically for two different passwords; the 2FA status of
`al@mail.co` returns only the enabled flag. -/
theorem responses_omit_sensitive_witness :
    findUserByEmail (sanitizeEmail "bo@mail.co") demoStore2fa = none ∧
    getTwofaByEmail (sanitizeEmail "al@mail.co") demoStore2fa =
      some ⟨1, 111222, true⟩ ∧
    (registerPost demoStore2fa ⟨"bo@mail.co", "password9", " Bo "⟩ 8).1 =
      success_response
        (.user demoStore2fa.nextId (sanitizeEmail "bo@mail.co") (trimStr " Bo ") 8)
        "User created successfully" 201 ∧
    (∀ pw₂ : String, pw₂ ≠ "" → ¬ (pw₂.length < 8) →
      (registerPost demoStore2fa ⟨"bo@mail.co", pw₂, " Bo "⟩ 8).1 =
        (registerPost demoStore2fa ⟨"bo@mail.co", "password9", " Bo "⟩ 8).1) ∧
    twofaByEmailPost demoStore2fa ⟨"al@mail.co"⟩ =
      success_response (.twofaStatus true) "2FA status fetched successfully" 200 :=
  ⟨by decide, by decide,
    responses_omit_sensitive demoStore2fa ⟨"bo@mail.co", "password9", " Bo "⟩ 8
      "al@mail.co" ⟨1, 111222, true⟩ (by decide) (by decide) (by decide) (by decide)
      (by decide) (by decide) (by decide) (by decide)⟩

/-- C10: every token-protected operation (profile fetch, 2FA
generate/verify/status/disable, recovery-code generate/list) answers a
request with a missing or invalid Authorization token with 401, leaves the
store unchanged, and produces a response that does not depend on the store
— no store action is invoked. -/
theorem unauthorized_rejected_before_store
    (s : Store) (auth : String) (body2 : CodeReq) (freshSecret now : Nat)
    (freshCodes : List String)
    (hbad : validateToken auth = none) :
    ((∀ s₂ : Store, profileGet s₂ auth = ((profileGet s auth).1, s₂)) ∧
      (profileGet s auth).1.status = 401) ∧
    ((∀ s₂ : Store, twofaPost s₂ auth freshSecret = ((twofaPost s auth freshSecret).1, s₂)) ∧
      (twofaPost s auth freshSecret).1.status = 401) ∧
    ((∀ s₂ : Store, twofaPut s₂ auth body2 now = ((twofaPut s auth body2 now).1, s₂)) ∧
      (twofaPut s auth body2 now).1.status = 401) ∧
    ((∀ s₂ : Store, twofaGet s₂ auth = ((twofaGet s auth).1, s₂)) ∧
      (twofaGet s auth).1.status = 401) ∧
    ((∀ s₂ : Store, twofaDelete s₂ auth = ((twofaDelete s auth).1, s₂)) ∧
      (twofaDelete s auth).1.status = 401) ∧
    ((∀ s₂ : Store, recoveryPost s₂ auth freshCodes = ((recoveryPost s auth freshCodes).1, s₂)) ∧
      (recoveryPost s auth freshCodes).1.status = 401) ∧
    ((∀ s₂ : Store, recoveryGet s₂ auth = ((recoveryGet s auth).1, s₂)) ∧
      (recoveryGet s auth).1.status = 401) := by
  by_cases hnil : auth = "" <;>
    refine ⟨⟨fun s₂ => ?_, ?_⟩, ⟨fun s₂ => ?_, ?_⟩, ⟨fun s₂ => ?_, ?_⟩, ⟨fun s₂ => ?_, ?_⟩,
      ⟨fun s₂ => ?_, ?_⟩, ⟨fun s₂ => ?_, ?_⟩, ⟨fun s₂ => ?_, ?_⟩⟩ <;>
    simp [profileGet, twofaPost, twofaPut, twofaGet, twofaDelete, recoveryPost, recoveryGet,
      validateUserToken, hnil, hbad, error_response]

/-- Witness for C10 at the invalid token `badtoken` over `demoStore`. -/
theorem unauthorized_rejected_before_store_witness :
    validateToken "badtoken" = none ∧
    (((∀ s₂ : Store, profileGet s₂ "badtoken" = ((profileGet demoStore "badtoken").1, s₂)) ∧
      (profileGet demoStore "badtoken").1.status = 401) ∧
    ((∀ s₂ : Store, twofaPost s₂ "badtoken" 7 = ((twofaPost demoStore "badtoken" 7).1, s₂)) ∧
      (twofaPost demoStore "badtoken" 7).1.status = 401) ∧
    ((∀ s₂ : Store, twofaPut s₂ "badtoken" ⟨"123456"⟩ 2 =
        ((twofaPut demoStore "badtoken" ⟨"123456"⟩ 2).1, s₂)) ∧
      (twofaPut demoStore "badtoken" ⟨"123456"⟩ 2).1.status = 401) ∧
    ((∀ s₂ : Store, twofaGet s₂ "badtoken" = ((twofaGet demoStore "badtoken").1, s₂)) ∧
      (twofaGet demoStore "badtoken").1.status = 401) ∧
    ((∀ s₂ : Store, twofaDelete s₂ "badtoken" = ((twofaDelete demoStore "badtoken").1, s₂)) ∧
      (twofaDelete demoStore "badtoken").1.status = 401) ∧
    ((∀ s₂ : Store, recoveryPost s₂ "badtoken" demoNewCodes =
        ((recoveryPost demoStore "badtoken" demoNewCodes).1, s₂)) ∧
      (recoveryPost demoStore "badtoken" demoNewCodes).1.status = 401) ∧
    ((∀ s₂ : Store, recoveryGet s₂ "badtoken" = ((recoveryGet demoStore "badtoken").1, s₂)) ∧
      (recoveryGet demoStore "badtoken").1.status = 401)) :=
  ⟨by decide,
    unauthorized_rejected_before_store demoStore "badtoken" ⟨"123456"⟩ 7 2 demoNewCodes
      (by decide)⟩

end TwoFA

